import Mathlib

/-!
Shallow embedding of the SharePoint connector
(`backend/onyx/connectors/sharepoint/connector.py`) and proofs about its
scope resolution, retry policy, traversal filters, document conversion and
batching behaviour.

Machine strings are modelled as Lean `String`; Python's `str.split(sep)` for a
one-character separator and `sep.join` are modelled by `pySplit` / `pyJoin`
below, and `urllib.parse.unquote` by `unquote` (exact for single-byte percent
escapes, which cover every URL-reserved character).
-/

/-- Value of a hexadecimal digit character, as accepted by `unquote`
(both upper and lower case), computed on the code point: digits occupy
code points 48-57, upper-case A-F 65-70, lower-case a-f 97-102. -/
def hexDigitVal (c : Char) : Option Nat :=
  let n := c.toNat
  if 48 ≤ n ∧ n ≤ 57 then some (n - 48)
  else if 65 ≤ n ∧ n ≤ 70 then some (n - 55)
  else if 97 ≤ n ∧ n ≤ 102 then some (n - 87)
  else none

/-- Percent-decoding on character lists: a `%xy` group with two hex digits
decodes to the character with code `16*x + y`; anything else is copied
verbatim (as Python's `unquote` does for malformed escapes). -/
def percentDecodeChars : List Char → List Char
  | '%' :: a :: b :: rest =>
    match hexDigitVal a, hexDigitVal b with
    | some hi, some lo => Char.ofNat (16 * hi + lo) :: percentDecodeChars rest
    | _, _ => '%' :: percentDecodeChars (a :: b :: rest)
  | c :: rest => c :: percentDecodeChars rest
  | [] => []

/-- Model of `urllib.parse.unquote` (single-byte escapes). -/
def unquote (s : String) : String :=
  ⟨percentDecodeChars s.data⟩

/-- Model of Python `s.split(sep)` for a one-character separator:
splits on every occurrence, keeping empty segments, and yields `[""]`
for the empty string. -/
def splitCharList (sep : Char) : List Char → List (List Char)
  | [] => [[]]
  | c :: rest =>
    if c = sep then [] :: splitCharList sep rest
    else
      match splitCharList sep rest with
      | [] => [[c]]
      | h :: t => (c :: h) :: t

/-- Model of Python `sep.join(parts)` for a one-character separator. -/
def joinCharList (sep : Char) : List (List Char) → List Char
  | [] => []
  | [x] => x
  | x :: y :: t => x ++ sep :: joinCharList sep (y :: t)

/-- `str.split` on strings. -/
def pySplit (s : String) (sep : Char) : List String :=
  (splitCharList sep s.data).map (fun cs => ⟨cs⟩)

/-- Model of Python `s.strip()`: remove leading and trailing whitespace. -/
def pyStrip (s : String) : String :=
  ⟨((s.data.dropWhile Char.isWhitespace).reverse.dropWhile Char.isWhitespace).reverse⟩

/-- Worker for `str.split(sep)` with a multi-character separator: leftmost,
non-overlapping matches, keeping empty segments.  `fuel` bounds the number
of steps (each step consumes at least one character, so the input length
suffices); `acc` holds the current segment reversed. -/
def splitOnListGo (sep : List Char) : Nat → List Char → List Char → List (List Char)
  | _, [], acc => [acc.reverse]
  | 0, l, acc => [acc.reverse ++ l]
  | fuel + 1, c :: rest, acc =>
    if List.isPrefixOf sep (c :: rest) then
      acc.reverse :: splitOnListGo sep fuel (List.drop sep.length (c :: rest)) []
    else
      splitOnListGo sep fuel rest (c :: acc)

/-- Model of Python `s.split(sep)` for a non-empty multi-character
separator. -/
def pySplitStr (s : String) (sep : String) : List String :=
  (splitOnListGo sep.data s.data.length s.data []).map (fun cs => ⟨cs⟩)

/-- `sep.join` on strings. -/
def pyJoin (sep : Char) (parts : List String) : String :=
  ⟨joinCharList sep (parts.map String.data)⟩

theorem splitCharList_ne_nil (sep : Char) (l : List Char) :
    splitCharList sep l ≠ [] := by
  cases l with
  | nil => simp [splitCharList]
  | cons c rest =>
    simp only [splitCharList]
    split
    · simp
    · cases h : splitCharList sep rest <;> simp

theorem joinCharList_splitCharList (sep : Char) (l : List Char) :
    joinCharList sep (splitCharList sep l) = l := by
  induction l with
  | nil => rfl
  | cons c rest ih =>
    by_cases hc : c = sep
    · subst hc
      simp only [splitCharList, if_pos rfl]
      cases h : splitCharList c rest with
      | nil => exact absurd h (splitCharList_ne_nil _ _)
      | cons h2 t2 =>
        rw [h] at ih
        simp only [joinCharList]
        rw [← h] at ih ⊢
        rw [ih]
        rfl
    · simp only [splitCharList, if_neg hc]
      cases h : splitCharList sep rest with
      | nil => exact absurd h (splitCharList_ne_nil _ _)
      | cons h2 t2 =>
        rw [h] at ih
        cases t2 with
        | nil =>
          simp only [joinCharList] at ih ⊢
          rw [ih]
        | cons h3 t3 =>
          simp only [joinCharList] at ih ⊢
          rw [List.cons_append, ih]

theorem pyJoin_pySplit (s : String) (sep : Char) :
    pyJoin sep (pySplit s sep) = s := by
  cases s with
  | mk data =>
    simp only [pySplit, pyJoin, List.map_map]
    have : (String.data ∘ fun cs => String.mk cs) = id := rfl
    rw [this, List.map_id, joinCharList_splitCharList]

/-- `SiteDescriptor` from the source: base site URL, optional drive name,
optional folder path within the drive. -/
structure SiteDescriptor where
  url : String
  drive_name : Option String
  folder_path : Option String
deriving Repr, DecidableEq

/-- One iteration of the loop body of
`SharepointConnector._extract_site_and_drive_info`: `none` when the URL has
no `sites` segment (the loop appends nothing). -/
def extractOneSite (url : String) : Option SiteDescriptor :=
  let parts := pySplit (pyStrip url) '/'
  if "sites" ∈ parts then
    let sitesIndex := parts.indexOf "sites"
    let siteUrl := pyJoin '/' (parts.take (sitesIndex + 2))
    let remainingParts := parts.drop (sitesIndex + 2)
    match remainingParts with
    | [] => some ⟨siteUrl, none, none⟩
    | first :: rest =>
      some ⟨siteUrl, some (unquote first),
        if rest.isEmpty then none else some (pyJoin '/' (rest.map unquote))⟩
  else none

/-- `SharepointConnector._extract_site_and_drive_info`. -/
def extract_site_and_drive_info (site_urls : List String) : List SiteDescriptor :=
  site_urls.filterMap extractOneSite

/-!  Retry executor: `_sleep_and_retry`.  -/

/-- The response carried by a `ClientRequestException`, as the connector
reads it: an HTTP status code and the optional `Retry-After` header
(already parsed to seconds, as `int(retry_after)` does). -/
structure ResponseInfo where
  status_code : Nat
  retry_after : Option Nat
deriving Repr, DecidableEq

/-- `ClientRequestException`: may or may not carry a response. -/
structure ClientRequestException where
  response : Option ResponseInfo
deriving Repr, DecidableEq

/-- Outcome of one `execute_query()` call. -/
inductive CallResult (α : Type) where
  | success (value : α)
  | failure (e : ClientRequestException)
deriving Repr, DecidableEq

/-- Sleep duration chosen by `_sleep_and_retry` for a rate-limited attempt:
the `Retry-After` value when supplied, otherwise `min(30, 2**attempt * 5)`. -/
def backoffSleep (attempt : Nat) (r : ResponseInfo) : Nat :=
  match r.retry_after with
  | some t => t
  | none => min 30 (2 ^ attempt * 5)

/-- The loop of `_sleep_and_retry`, starting at iteration `attempt` of
`for attempt in range(max_retries + 1)`.  `exec n` is the outcome of the
`execute_query()` call performed on iteration `n`.  Returns the final
outcome together with the list of sleep durations performed, in order.

The guard transcribes `if e.response and e.response.status_code in
[429, 503] and attempt < max_retries`.  `ClientRequestException`
subclasses `requests.HTTPError`, so `e.response` is a
`requests.Response`, whose truthiness (`Response.__bool__`) is
`self.ok`, i.e. `status_code < 400`; `None` is falsy.  The first
conjunct of the guard is that truthiness test, which makes the
sleep-and-retry branch unreachable for every 429/503 response. -/
def sleep_and_retry_go {α : Type} (exec : Nat → CallResult α)
    (max_retries : Nat) (attempt : Nat) :
    Except ClientRequestException α × List Nat :=
  match exec attempt with
  | .success v => (.ok v, [])
  | .failure e =>
    match e.response with
    | some r =>
      if h : r.status_code < 400 ∧
          (r.status_code = 429 ∨ r.status_code = 503) ∧
          attempt < max_retries then
        let rest := sleep_and_retry_go exec max_retries (attempt + 1)
        (rest.1, backoffSleep attempt r :: rest.2)
      else
        (.error e, [])
    | none => (.error e, [])
termination_by max_retries - attempt
decreasing_by simp_wf; omega

/-- `_sleep_and_retry` with its default `max_retries = 3`. -/
def sleep_and_retry {α : Type} (exec : Nat → CallResult α) :
    Except ClientRequestException α × List Nat :=
  sleep_and_retry_go exec 3 0

/-!  Document conversion: `_convert_driveitem_to_document`.  -/

/-- The `size` attribute of a drive item as the converter probes it:
present and convertible by `int(...)`, absent (`getattr` returned `None`),
or unreadable (`int(...)` raised `ValueError`/`TypeError`). -/
inductive SizeAttr
  | known (n : Int)
  | absent
  | unreadable
deriving Repr, DecidableEq

/-- The fields of a remote `DriveItem` that the connector reads.
`content = none` models `get_content()` returning no payload. -/
structure DriveItemRec where
  id : String
  name : String
  web_url : String
  size : SizeAttr
  content : Option (List Nat)
  last_modified : Int
  parent_path : String
  owner_name : String
  owner_email : String
deriving Repr, DecidableEq

/-- `TextSection(link=..., text=...)`. -/
structure TextSection where
  link : String
  text : String
deriving Repr, DecidableEq

/-- `BasicExpertInfo(display_name=..., email=...)`. -/
structure BasicExpertInfo where
  display_name : String
  email : String
deriving Repr, DecidableEq

/-- The fields of `Document` that `_convert_driveitem_to_document` fills
(`source` is the constant `DocumentSource.SHAREPOINT` and is omitted;
the single metadata entry under key "drive" is `metadata_drive`). -/
structure Document where
  id : String
  sections : List TextSection
  semantic_identifier : String
  doc_updated_at : Int
  primary_owners : List BasicExpertInfo
  metadata_drive : String
deriving Repr, DecidableEq

/-- `_convert_driveitem_to_document`.  `threshold` is
`SHAREPOINT_CONNECTOR_SIZE_THRESHOLD` and `extractText` the external
`extract_file_text` collaborator.  The first component records whether the
content-fetch step (`_sleep_and_retry(driveitem.get_content(), ...)`) was
reached; the second is the produced document, `none` meaning skip. -/
def convert_driveitem_to_document (threshold : Int)
    (extractText : List Nat → String)
    (driveitem : DriveItemRec) (drive_name : String) :
    Bool × Option Document :=
  let fetchAndBuild : Bool × Option Document :=
    (true,
      match driveitem.content with
      | none => none
      | some bytes =>
        some ⟨driveitem.id,
              [⟨driveitem.web_url, extractText bytes⟩],
              driveitem.name,
              driveitem.last_modified,
              [⟨driveitem.owner_name, driveitem.owner_email⟩],
              drive_name⟩)
  match driveitem.size with
  | .known n => if n > threshold then (false, none) else fetchAndBuild
  | .absent => fetchAndBuild
  | .unreadable => fetchAndBuild

/-!  Traversal filters from `SharepointConnector._fetch_driveitems`.  -/

/-- Drive filter applied when `site_descriptor.drive_name` is set:
`drive.name == site_descriptor.drive_name or (drive.name == "Documents"
and site_descriptor.drive_name == "Shared Documents")`. -/
def drive_matches (requested_name : String) (dname : String) : Bool :=
  (dname == requested_name) ||
    ((dname == "Documents") && (requested_name == "Shared Documents"))

/-- The drive-list filter: applied only when a drive name is requested. -/
def filter_drives (requested : Option String) (drives : List String) :
    List String :=
  match requested with
  | some r => drives.filter (fun dname => drive_matches r dname)
  | none => drives

/-- Container relabelling: `"Shared Documents" if drive.name == "Documents"
else drive.name`. -/
def drive_label (dname : String) : String :=
  if dname == "Documents" then "Shared Documents" else dname

/-- Model of Python `s.startswith(p)`: character-level prefix test. -/
def strIsPrefixOf (p s : String) : Bool :=
  List.isPrefixOf p.data s.data

/-- The folder-path re-filter the code applies when
`site_descriptor.folder_path` is set: keep an item when ANY `/`-segment of
`item.parent_reference.path.split("root:/")[1]` equals `folder_path` or
starts with `folder_path + "/"`.  (The source indexes `[1]` unguarded and
would raise `IndexError` on a path without the `root:/` marker; the model
returns "" there, and every path analysed below contains the marker.) -/
def folder_path_filter (folder_path : String) (items : List DriveItemRec) :
    List DriveItemRec :=
  items.filter (fun item =>
    (pySplit ((pySplitStr item.parent_path "root:/").getD 1 "") '/').any
      (fun path_part =>
        (path_part == folder_path) ||
          (strIsPrefixOf (folder_path ++ "/") path_part)))

/-- The retention rule as the specification states it (for comparison with
`folder_path_filter`): an item is retained exactly when its parent path
relative to the drive root equals `folder_path` or begins with
`folder_path + "/"`. -/
def spec_folder_retention (folder_path : String) (rel_parent_path : String) :
    Bool :=
  (rel_parent_path == folder_path) ||
    (strIsPrefixOf (folder_path ++ "/") rel_parent_path)

/-- Time-window filter: applied only when both `start` and `end` are set
(`stop` stands for the source's `end` parameter); keeps items with
`start <= item.last_modified_datetime <= end`. -/
def time_window_filter (start : Option Int) (stop : Option Int)
    (items : List DriveItemRec) : List DriveItemRec :=
  match start, stop with
  | some s, some e =>
    items.filter (fun item =>
      decide (s ≤ item.last_modified) && decide (item.last_modified ≤ e))
  | _, _ => items

/-!  Error taxonomy: credential check, site enumeration, site resolution.  -/

/-- The fatal outcomes the connector raises. -/
inductive ConnectorError
  | missing_credential
  | no_sites_found
  | site_resolution (msg : String)
deriving Repr, DecidableEq

/-- The `graph_client` property: raises `ConnectorMissingCredentialError`
when no credential has been loaded. -/
def graph_client_of {γ : Type} (client : Option γ) : Except ConnectorError γ :=
  match client with
  | none => .error .missing_credential
  | some g => .ok g

/-- Model of Python's `needle in haystack` on strings: Boolean contiguous
substring test. -/
def listIsInfixOf (needle : List Char) : List Char → Bool
  | [] => needle.isEmpty
  | c :: rest => List.isPrefixOf needle (c :: rest) || listIsInfixOf needle rest

/-- The classification in `_fetch_driveitems`'s outer `except`: an error is
re-raised exactly when its string contains "403 Client Error",
"404 Client Error" or "invalid_client". -/
def is_fatal_site_error (msg : String) : Bool :=
  listIsInfixOf "403 Client Error".data msg.data ||
    listIsInfixOf "404 Client Error".data msg.data ||
    listIsInfixOf "invalid_client".data msg.data

/-- `SharepointConnector._fetch_driveitems`, abstracted over the work the
body does once a client is available.  The whole body — starting with the
`self.graph_client` property access on its first line — runs inside the
outer `try`, so with no credential loaded the
`ConnectorMissingCredentialError` raised by the property is caught by the
same `except Exception` as any resolution failure.  Raised exceptions are
represented by their `str(e)`: `missing_msg` is the string of the
missing-credential exception and `resolve` the site resolution and
traversal.  The
handler re-raises exactly the messages `is_fatal_site_error` marks and
otherwise logs and returns the empty item list (the target is skipped,
the run continues). -/
def fetch_driveitems {γ : Type} (missing_msg : String) (client : Option γ)
    (resolve : γ → Except String (List (DriveItemRec × String))) :
    Except String (List (DriveItemRec × String)) :=
  let body : Except String (List (DriveItemRec × String)) :=
    match client with
    | none => .error missing_msg
    | some g => resolve g
  match body with
  | .ok items => .ok items
  | .error msg =>
    if is_fatal_site_error msg then .error msg
    else .ok []

/-- `SharepointConnector._fetch_sites`, together with the `graph_client`
property access it begins with: on this (scope-less) path there is no
surrounding handler, so a missing credential propagates; `list_sites`
gives the site URLs the paginated enumeration returns; zero sites raises
`RuntimeError`; otherwise one unrestricted `SiteDescriptor` per site. -/
def fetch_sites {γ : Type} (client : Option γ)
    (list_sites : γ → List String) :
    Except ConnectorError (List SiteDescriptor) :=
  match graph_client_of client with
  | .error err => .error err
  | .ok g =>
    if (list_sites g).isEmpty then .error .no_sites_found
    else .ok ((list_sites g).map (fun u => ⟨u, none, none⟩))

/-!  Batching: the generator loop of `_fetch_from_sharepoint`.  -/

/-- The batching loop over the stream of converted documents, carrying the
running `doc_batch` buffer: append each document, emit the buffer whenever
`len(doc_batch) >= batch_size`, and emit whatever remains once at the end. -/
def batchGo {α : Type} (batch_size : Nat) : List α → List α → List (List α)
  | [], buf => [buf]
  | d :: rest, buf =>
    let buf2 := buf ++ [d]
    if batch_size ≤ buf2.length then buf2 :: batchGo batch_size rest []
    else batchGo batch_size rest buf2

/-- The batch sequence `_fetch_from_sharepoint` yields for a given stream
of converted documents. -/
def fetch_from_sharepoint_batches {α : Type} (batch_size : Nat)
    (docs : List α) : List (List α) :=
  batchGo batch_size docs []

/-!  Theorems.  -/

theorem batchGo_flatten {α : Type} (b : Nat) (docs : List α) :
    ∀ buf : List α, (batchGo b docs buf).flatten = buf ++ docs := by
  induction docs with
  | nil => intro buf; simp [batchGo]
  | cons d rest ih =>
    intro buf
    simp only [batchGo]
    split
    · simp [ih]
    · simp [ih]

/-- C3: the batch sequence is produced by accumulating converted documents
in a buffer, emitting it at `batchSize` and once more at the end (even if
empty or partial): with `batchSize = 2` and 5 documents the batch lengths
are `[2, 2, 1]`, with 0 documents the sequence is one empty batch, and
concatenating the batches recovers exactly the document stream, so every
converted document appears in exactly one batch. -/
theorem batching_spec :
    ((fetch_from_sharepoint_batches 2 [0, 1, 2, 3, 4]).map List.length = [2, 2, 1]) ∧
    (∀ (α : Type) (b : Nat), fetch_from_sharepoint_batches b ([] : List α) = [[]]) ∧
    (∀ (α : Type) (b : Nat) (docs : List α),
      (fetch_from_sharepoint_batches b docs).flatten = docs) := by
  refine ⟨by decide, fun α b => rfl, fun α b docs => ?_⟩
  simpa using batchGo_flatten b docs []

theorem batching_spec_witness :
    (fetch_from_sharepoint_batches 3 [9, 8, 7, 6, 5]).flatten = [9, 8, 7, 6, 5] :=
  batching_spec.2.2 Nat 3 [9, 8, 7, 6, 5]

/-- C6: with a time window `[s, e]` an item is retained iff its
last-modified timestamp lies in `[s, e]` inclusive; with no window set no
time-based filtering occurs. -/
theorem time_window_spec :
    (∀ (s e : Int) (items : List DriveItemRec) (item : DriveItemRec),
      item ∈ time_window_filter (some s) (some e) items ↔
        item ∈ items ∧ s ≤ item.last_modified ∧ item.last_modified ≤ e) ∧
    (∀ (o : Option Int) (items : List DriveItemRec),
      time_window_filter o none items = items ∧
      time_window_filter none o items = items) := by
  constructor
  · intro s e items item
    simp [time_window_filter, List.mem_filter, and_assoc]
  · intro o items
    cases o <;> exact ⟨rfl, rfl⟩

/-- Concrete drive item used to instantiate the time-window theorem. -/
def boundaryItem : DriveItemRec :=
  ⟨"item-t", "t.txt", "https://host/t.txt", .absent, some [], 5,
   "/drives/d1/root:/f", "owner", "owner@example.com"⟩

theorem time_window_spec_witness :
    boundaryItem ∈ time_window_filter (some 5) (some 9) [boundaryItem] :=
  (time_window_spec.1 5 9 [boundaryItem] boundaryItem).mpr
    ⟨by simp, by decide, by decide⟩

/-- C7: with a requested drive name, a drive is kept exactly when its name
equals the requested one, or it is named "Documents" and the request is
"Shared Documents"; the container label of a drive named "Documents" is
"Shared Documents" and every other name passes through unchanged. -/
theorem drive_match_spec :
    (∀ (requested : String) (drives : List String) (d : String),
      d ∈ filter_drives (some requested) drives ↔
        d ∈ drives ∧
          (d = requested ∨ (d = "Documents" ∧ requested = "Shared Documents"))) ∧
    (drive_label "Documents" = "Shared Documents") ∧
    (∀ d : String, d ≠ "Documents" → drive_label d = d) := by
  refine ⟨?_, rfl, ?_⟩
  · intro requested drives d
    simp [filter_drives, drive_matches, List.mem_filter]
  · intro d hd
    simp [drive_label, hd]

theorem drive_match_spec_witness :
    "Documents" ∈ filter_drives (some "Shared Documents") ["Documents", "Other"] :=
  (drive_match_spec.1 "Shared Documents" ["Documents", "Other"] "Documents").mpr
    ⟨by simp, Or.inr ⟨rfl, rfl⟩⟩

/-- Concrete drive item lying exactly in the documented folder
`test/nested` (its parent path relative to the drive root is
`test/nested`). -/
def nestedFolderItem : DriveItemRec :=
  ⟨"item-1", "report.txt", "https://host/report.txt", .absent, some [], 0,
   "/drives/d1/root:/test/nested", "owner", "owner@example.com"⟩

/-- C1: the code's folder re-filter diverges from the stated retention
rule in both directions.  For `folderPath = "test/nested"` it DROPS an
item whose parent path relative to the drive root is exactly
`test/nested` (no single `/`-segment equals the multi-segment folder
path), although the stated rule retains it; and for `folderPath =
"nested"` it RETAINS that same item (its second segment equals the folder
path), although its parent path `test/nested` neither equals `nested` nor
begins with `nested/`. -/
theorem folder_filter_divergence :
    folder_path_filter "test/nested" [nestedFolderItem] = [] ∧
    spec_folder_retention "test/nested" "test/nested" = true ∧
    folder_path_filter "nested" [nestedFolderItem] = [nestedFolderItem] ∧
    spec_folder_retention "nested" "test/nested" = false := by
  decide

/-- C5: the converter skips (returns no document) exactly when the item's
size is known and exceeds the threshold or content retrieval returns no
payload; the content-fetch step is reached iff the size check did not
already skip, so an oversize item never reaches it and an item with
unknown or unreadable size still proceeds to retrieval and conversion. -/
theorem size_skip_spec (threshold : Int) (extractText : List Nat → String)
    (driveitem : DriveItemRec) (drive_name : String) :
    ((convert_driveitem_to_document threshold extractText driveitem drive_name).2 = none ↔
      ((∃ n, driveitem.size = .known n ∧ n > threshold) ∨ driveitem.content = none)) ∧
    ((convert_driveitem_to_document threshold extractText driveitem drive_name).1 = false ↔
      (∃ n, driveitem.size = .known n ∧ n > threshold)) ∧
    ((driveitem.size = .absent ∨ driveitem.size = .unreadable) →
      (convert_driveitem_to_document threshold extractText driveitem drive_name).1 = true) := by
  cases hs : driveitem.size with
  | known n =>
    by_cases hth : n > threshold
    · simp [convert_driveitem_to_document, hs, hth]
    · cases hc : driveitem.content <;>
        simp [convert_driveitem_to_document, hs, hth, hc]
  | absent =>
    cases hc : driveitem.content <;>
      simp [convert_driveitem_to_document, hs, hc]
  | unreadable =>
    cases hc : driveitem.content <;>
      simp [convert_driveitem_to_document, hs, hc]

/-- Concrete oversize drive item (size 100, threshold 50 below). -/
def oversizeItem : DriveItemRec :=
  ⟨"item-big", "big.bin", "https://host/big.bin", .known 100, some [1], 0,
   "/drives/d1/root:/f", "owner", "owner@example.com"⟩

theorem size_skip_spec_witness :
    (convert_driveitem_to_document 50 (fun _ => "") oversizeItem "Shared Documents").2 = none ∧
    (convert_driveitem_to_document 50 (fun _ => "") oversizeItem "Shared Documents").1 = false := by
  have h := size_skip_spec 50 (fun _ => "") oversizeItem "Shared Documents"
  exact ⟨h.1.mpr (Or.inl ⟨100, rfl, by norm_num⟩), h.2.1.mpr ⟨100, rfl, by norm_num⟩⟩

/-- Modelled from the spec: the string of the
`ConnectorMissingCredentialError("Sharepoint")` raised by the
`graph_client` property — the exception class lives in
`onyx.connectors.models`, outside the sources at hand.  Its exact wording
is immaterial beyond containing none of the fatal markers
`403 Client Error`, `404 Client Error`, `invalid_client`; the general
theorem below quantifies over every such message. -/
def connector_missing_credential_msg : String :=
  "Connector Sharepoint is missing credentials"

/-- C8 counterexample: with explicit scope targets configured and no
credential loaded, the missing-credential exception raised inside
`_fetch_driveitems` is caught by its catch-all handler, matches no fatal
marker, and the target is skipped with an empty item list — the missing
credential does NOT propagate to the caller, contradicting the claim
that it is fatal on every path. -/
theorem missing_credential_swallowed :
    fetch_driveitems (γ := Unit) connector_missing_credential_msg none
        (fun _ => .ok []) = .ok [] ∧
    is_fatal_site_error connector_missing_credential_msg = false := by
  constructor
  · rfl
  · decide

/-- C8 (amended): zero sites during full-tenant enumeration and
site-resolution failures marked forbidden, not-found or
invalid-credential propagate; any other failure raised inside
`_fetch_driveitems` — including the missing-credential exception when
explicit scope targets are configured — skips the target with an empty
item list and the run continues; a missing credential propagates only on
the scope-less path, where `_fetch_sites` touches `graph_client` outside
any handler. -/
theorem fatal_error_amended_spec :
    (∀ (γ : Type) (missing_msg : String)
        (resolve : γ → Except String (List (DriveItemRec × String))),
      is_fatal_site_error missing_msg = false →
      fetch_driveitems missing_msg none resolve = .ok []) ∧
    (∀ list_sites : Unit → List String,
      fetch_sites (γ := Unit) none list_sites = .error .missing_credential) ∧
    (∀ list_sites : Unit → List String, list_sites () = [] →
      fetch_sites (some ()) list_sites = .error .no_sites_found) ∧
    (∀ list_sites : Unit → List String, list_sites () ≠ [] →
      fetch_sites (some ()) list_sites =
        .ok ((list_sites ()).map (fun u => ⟨u, none, none⟩))) ∧
    (∀ (γ : Type) (missing_msg msg : String) (g : γ),
      is_fatal_site_error msg = true →
      fetch_driveitems missing_msg (some g) (fun _ => .error msg) =
        .error msg) ∧
    (∀ (γ : Type) (missing_msg msg : String) (g : γ),
      is_fatal_site_error msg = false →
      fetch_driveitems missing_msg (some g) (fun _ => .error msg) =
        .ok []) ∧
    (∀ (γ : Type) (missing_msg : String) (g : γ)
        (items : List (DriveItemRec × String)),
      fetch_driveitems missing_msg (some g) (fun _ => .ok items) =
        .ok items) := by
  refine ⟨?_, fun l => rfl, ?_, ?_, ?_, ?_, fun γ mm g items => rfl⟩
  · intro γ mm resolve h
    simp [fetch_driveitems, h]
  · intro l h
    simp [fetch_sites, graph_client_of, h]
  · intro l h
    simp [fetch_sites, graph_client_of, h]
  · intro γ mm msg g h
    simp [fetch_driveitems, h]
  · intro γ mm msg g h
    simp [fetch_driveitems, h]

theorem fatal_error_amended_spec_witness :
    fetch_driveitems (γ := Unit) "Connector Sharepoint is missing credentials"
        none (fun _ => .ok []) = .ok [] ∧
    fetch_driveitems (γ := Unit) "m" (some ())
        (fun _ => .error "404 Client Error: Not Found for url") =
      .error "404 Client Error: Not Found for url" ∧
    fetch_driveitems (γ := Unit) "m" (some ())
        (fun _ => .error "site has no drives") = .ok [] := by
  have h := fatal_error_amended_spec
  exact ⟨h.1 Unit "Connector Sharepoint is missing credentials" _ (by decide),
    h.2.2.2.2.1 Unit "m" "404 Client Error: Not Found for url" () (by decide),
    h.2.2.2.2.2.1 Unit "m" "site has no drives" () (by decide)⟩

theorem extractOneSite_eq_none (u : String)
    (h : "sites" ∉ pySplit (pyStrip u) '/') : extractOneSite u = none := by
  simp [extractOneSite, h]

theorem extractOneSite_isSome (u : String)
    (h : "sites" ∈ pySplit (pyStrip u) '/') : (extractOneSite u).isSome = true := by
  simp only [extractOneSite, if_pos h]
  cases hd : (pySplit (pyStrip u) '/').drop
      ((pySplit (pyStrip u) '/').indexOf "sites" + 2) with
  | nil => simp [hd]
  | cons first rest => simp [hd]

/-- C4: the scope resolver yields one target per string containing a
`sites` segment (root URL up to and including the segment after `sites`,
first remaining segment percent-decoded as drive name, further segments
decoded and re-joined as folder path, absent on an empty tail) and
silently drops strings lacking a `sites` segment; the worked example
resolves as the specification states. -/
theorem scope_resolver_spec :
    (extract_site_and_drive_info ["https://host/sites/A/Shared Documents/sub folder"] =
      [⟨"https://host/sites/A", some "Shared Documents", some "sub folder"⟩]) ∧
    (∀ u : String, "sites" ∉ pySplit (pyStrip u) '/' →
      extract_site_and_drive_info [u] = []) ∧
    (∀ site_urls : List String,
      (extract_site_and_drive_info site_urls).length =
        (site_urls.filter
          (fun u => decide ("sites" ∈ pySplit (pyStrip u) '/'))).length) ∧
    (∀ (u first : String) (rest : List String),
      "sites" ∈ pySplit (pyStrip u) '/' →
      (pySplit (pyStrip u) '/').drop
          ((pySplit (pyStrip u) '/').indexOf "sites" + 2) = first :: rest →
      extract_site_and_drive_info [u] =
        [⟨pyJoin '/' ((pySplit (pyStrip u) '/').take
            ((pySplit (pyStrip u) '/').indexOf "sites" + 2)),
          some (unquote first),
          if rest.isEmpty then none
          else some (pyJoin '/' (rest.map unquote))⟩]) := by
  refine ⟨by decide, ?_, ?_, ?_⟩
  · intro u h
    simp [extract_site_and_drive_info, extractOneSite_eq_none u h]
  · intro site_urls
    induction site_urls with
    | nil => rfl
    | cons u us ih =>
      by_cases h : "sites" ∈ pySplit (pyStrip u) '/'
      · obtain ⟨d, hd⟩ := Option.isSome_iff_exists.mp (extractOneSite_isSome u h)
        simp [extract_site_and_drive_info, hd, h] at ih ⊢
        omega
      · simp [extract_site_and_drive_info, extractOneSite_eq_none u h, h] at ih ⊢
        exact ih
  · intro u first rest hmem hdrop
    simp only [extract_site_and_drive_info, List.filterMap_cons,
      List.filterMap_nil, extractOneSite, if_pos hmem, hdrop]

theorem scope_resolver_spec_witness :
    extract_site_and_drive_info ["https://host/teams/x"] = [] :=
  scope_resolver_spec.2.1 "https://host/teams/x" (by decide)

/-- C9: a scope string whose `sites` segment (the one the resolver
locates, i.e. the first) is the final path segment still yields a target:
its root URL is the whole (already-stripped) string and its drive name
and folder path are both absent. -/
theorem scope_trailing_sites (u : String)
    (h0 : pyStrip u = u)
    (hmem : "sites" ∈ pySplit u '/')
    (hlast : (pySplit u '/').indexOf "sites" + 1 = (pySplit u '/').length) :
    extract_site_and_drive_info [u] = [⟨u, none, none⟩] := by
  have hdrop : (pySplit u '/').drop ((pySplit u '/').indexOf "sites" + 2) = [] :=
    List.drop_eq_nil_of_le (by omega)
  have htake : (pySplit u '/').take ((pySplit u '/').indexOf "sites" + 2) =
      pySplit u '/' :=
    List.take_of_length_le (by omega)
  simp only [extract_site_and_drive_info, List.filterMap_cons,
    List.filterMap_nil, extractOneSite, h0, if_pos hmem, hdrop, htake,
    pyJoin_pySplit]

theorem scope_trailing_sites_witness :
    extract_site_and_drive_info ["https://host/sites"] =
      [⟨"https://host/sites", none, none⟩] :=
  scope_trailing_sites "https://host/sites" (by decide) (by decide) (by decide)

/-- A query whose every attempt fails with 429 and `Retry-After: 7` —
the retry scenario of the specification. -/
def retryAfter7 : Nat → CallResult Unit :=
  fun _ => .failure ⟨some ⟨429, some 7⟩⟩

/-- C2: the claimed retry/backoff behaviour is dead code.  The guard of
`_sleep_and_retry` first evaluates the truthiness of `e.response` —
`status_code < 400` for a `requests.Response` — so a 429 or 503 response
is falsy and the wrapper raises at once: for every query and every
starting attempt the wrapper performs no sleep at all and its outcome is
decided entirely by the first call, with no second attempt; in
particular the specification's own scenario, a 429 with `Retry-After: 7`,
propagates immediately with an empty sleep trace instead of sleeping 7
seconds and retrying up to 3 times. -/
theorem retry_dead_code_spec :
    (∀ (α : Type) (exec : Nat → CallResult α) (m a : Nat),
      (sleep_and_retry_go exec m a).2 = []) ∧
    (∀ (α : Type) (exec : Nat → CallResult α) (m a : Nat),
      sleep_and_retry_go exec m a =
        ((match exec a with
          | .success v => Except.ok v
          | .failure e => Except.error e), [])) ∧
    (sleep_and_retry retryAfter7 = (.error ⟨some ⟨429, some 7⟩⟩, [])) := by
  have key : ∀ (α : Type) (exec : Nat → CallResult α) (m a : Nat),
      sleep_and_retry_go exec m a =
        ((match exec a with
          | .success v => Except.ok v
          | .failure e => Except.error e), []) := by
    intro α exec m a
    rw [sleep_and_retry_go]
    cases hx : exec a with
    | success v => rfl
    | failure e =>
      cases hr : e.response with
      | none => simp [hr]
      | some r =>
        have hneg : ¬(r.status_code < 400 ∧
            (r.status_code = 429 ∨ r.status_code = 503) ∧ a < m) := by
          rintro ⟨h1, h2, _⟩
          rcases h2 with h2 | h2 <;> omega
        simp [hr, hneg]
  refine ⟨fun α exec m a => by rw [key α exec m a], key, ?_⟩
  rw [sleep_and_retry, key]
  rfl

/-- C10: a client-request exception carrying no response object at all
propagates on the very first attempt, with no sleep and no retry. -/
theorem retry_no_response_spec (α : Type) (exec : Nat → CallResult α)
    (e : ClientRequestException) (h1 : exec 0 = .failure e)
    (h2 : e.response = none) :
    sleep_and_retry exec = (.error e, []) := by
  rw [sleep_and_retry, sleep_and_retry_go, h1]
  simp only [h2]

/-- A query whose every attempt fails with a response-less exception. -/
def noResponseFailure : Nat → CallResult Unit :=
  fun _ => .failure ⟨none⟩

theorem retry_no_response_spec_witness :
    sleep_and_retry noResponseFailure = (.error ⟨none⟩, []) :=
  retry_no_response_spec Unit noResponseFailure ⟨none⟩ rfl rfl
